import Mathlib

/-!
Shallow embedding of the transactional stock-consistency core of the
inventory/POS repository: the stock ledger (`ProductService.reserve_stock`,
`release_reserved_stock`, `consume_stock`, `get_stock_level`), the unit
converter (`ProductService.convert_units`), the sale-transaction state
machine (`TransactionService.create_sale_transaction`, `confirm_transaction`,
`cancel_transaction`) and the reconciliation engine
(`TransactionService.reconcile_transactions`).

Python `Decimal` quantities are modelled as `ℚ` (exact arithmetic; the
repository's design notes mandate arbitrary-precision decimals).  Database
tables are modelled as lists of rows; `scalar_one_or_none` lookups become
`List.find?` (the data model declares the lookup keys unique).  A Python
method that can both mutate persisted state and raise is modelled as a
function returning `state × Except PyErr α`: the returned state is what was
committed even when the call raises.  `datetime.utcnow()` is modelled by an
explicit `now : Nat` clock argument.
-/

/-- The exception kinds the modelled code can raise.
`insufficientStock` is `InsufficientStockError`; `invalidOperation` is
`InvalidOperationError` (the "No conversion available" failure);
`valueError` is Python `ValueError` (not-found and invalid-transition
failures); `divisionByZero` is `decimal.DivisionByZero`, raised by Python
when a `Decimal` is divided by zero. -/
inductive PyErr where
  | insufficientStock : PyErr
  | invalidOperation : PyErr
  | valueError : PyErr
  | divisionByZero : PyErr
deriving Repr, DecidableEq

/-- A row of the `stock_levels` table (src/backend/app/models/product.py).
`min_stock_level` / `max_stock_level` are omitted: no modelled operation
reads or writes them. -/
structure StockLevel where
  product_id : Nat
  location_id : Nat
  quantity : ℚ
  reserved_quantity : ℚ
deriving Repr, DecidableEq

/-- A row of the `unit_conversions` table. -/
structure UnitConversion where
  product_id : Nat
  from_unit : String
  to_unit : String
  conversion_factor : ℚ
deriving Repr, DecidableEq

/-- `ProductService.get_stock_level`: the unique row for
`(product_id, location_id)`, or `none`. -/
def get_stock_level (db : List StockLevel) (p l : Nat) : Option StockLevel :=
  db.find? (fun s => s.product_id == p && s.location_id == l)

/-- The SQL `UPDATE stock_levels ... WHERE product_id = p AND
location_id = l` used by all three ledger mutations: rewrites every row
matching the key with `f`. -/
def set_stock (db : List StockLevel) (p l : Nat) (f : StockLevel → StockLevel) :
    List StockLevel :=
  db.map (fun s => if s.product_id == p && s.location_id == l then f s else s)

/-- `ProductService.reserve_stock`.  Raises `InsufficientStockError` when the
row is missing or `available < quantity`; otherwise sets
`reserved_quantity := snapshot.reserved_quantity + quantity` and returns
`True`. -/
def reserve_stock (db : List StockLevel) (p l : Nat) (quantity : ℚ) :
    List StockLevel × Except PyErr Bool :=
  match get_stock_level db p l with
  | none => (db, .error .insufficientStock)
  | some stock_level =>
    let available := stock_level.quantity - stock_level.reserved_quantity
    if available < quantity then (db, .error .insufficientStock)
    else
      (set_stock db p l (fun s =>
        { s with reserved_quantity := stock_level.reserved_quantity + quantity }),
       .ok true)

/-- `ProductService.release_reserved_stock`.  Returns `False` (no state
change) when the row is missing; otherwise sets
`reserved_quantity := max 0 (snapshot.reserved_quantity - quantity)` and
returns `True`.  Never raises. -/
def release_reserved_stock (db : List StockLevel) (p l : Nat) (quantity : ℚ) :
    List StockLevel × Except PyErr Bool :=
  match get_stock_level db p l with
  | none => (db, .ok false)
  | some stock_level =>
    let new_reserved := max 0 (stock_level.reserved_quantity - quantity)
    (set_stock db p l (fun s => { s with reserved_quantity := new_reserved }),
     .ok true)

/-- `ProductService.consume_stock`.  Returns `False` (no state change) when
the row is missing; raises `InsufficientStockError` when
`available < quantity`; otherwise decrements `quantity` and floors
`reserved_quantity` at zero, returning `True`. -/
def consume_stock (db : List StockLevel) (p l : Nat) (quantity : ℚ) :
    List StockLevel × Except PyErr Bool :=
  match get_stock_level db p l with
  | none => (db, .ok false)
  | some stock_level =>
    let available := stock_level.quantity - stock_level.reserved_quantity
    if available < quantity then (db, .error .insufficientStock)
    else
      (set_stock db p l (fun s =>
        { s with quantity := stock_level.quantity - quantity,
                 reserved_quantity := max 0 (stock_level.reserved_quantity - quantity) }),
       .ok true)

/-- The `scalar_one_or_none` lookup for a `unit_conversions` key
`(product_id, from_unit, to_unit)`. -/
def find_conversion (db : List UnitConversion) (p : Nat) (fu tu : String) :
    Option UnitConversion :=
  db.find? (fun c => c.product_id == p && c.from_unit == fu && c.to_unit == tu)

/-- `ProductService.convert_units`.  Direct row first (`quantity * factor`),
then the reverse row (`quantity / factor`; Python `Decimal` division raises
`DivisionByZero` on a zero divisor), then the `from_unit == to_unit`
identity case, else `InvalidOperationError` ("No conversion available"). -/
def convert_units (db : List UnitConversion) (p : Nat) (from_unit to_unit : String)
    (quantity : ℚ) : Except PyErr ℚ :=
  match find_conversion db p from_unit to_unit with
  | some conversion => .ok (quantity * conversion.conversion_factor)
  | none =>
    match find_conversion db p to_unit from_unit with
    | some reverse_conversion =>
      if reverse_conversion.conversion_factor = 0 then .error .divisionByZero
      else .ok (quantity / reverse_conversion.conversion_factor)
    | none =>
      if from_unit = to_unit then .ok quantity
      else .error .invalidOperation

/-- `TransactionStatus` (src/backend/app/models/transaction.py). -/
inductive TransactionStatus where
  | pending
  | confirmed
  | cancelled
  | failed
deriving Repr, DecidableEq

/-- A row of the `sale_transactions` table.  `processed_at` is `none` until
a confirm/cancel/fail transition stamps it with the current clock. -/
structure SaleTransaction where
  id : Nat
  event_id : String
  product_id : Nat
  location_id : Nat
  quantity : ℚ
  unit_type : String
  converted_quantity : ℚ
  price_per_unit : ℚ
  total_amount : ℚ
  status : TransactionStatus
  processed_at : Option Nat
  terminal_timestamp : Option Nat
  user_id : Option Nat
deriving Repr, DecidableEq

/-- The `SaleTransactionCreate` payload (src/app/schemas/transaction.py). -/
structure SaleTransactionCreate where
  event_id : String
  product_id : Nat
  location_id : Nat
  quantity : ℚ
  unit_type : String
  converted_quantity : ℚ
  price_per_unit : ℚ
  total_amount : ℚ
  terminal_timestamp : Option Nat
  user_id : Option Nat
deriving Repr, DecidableEq

/-- A row of the `reconciliation_logs` table. -/
structure ReconciliationLog where
  id : Nat
  start_time : Nat
  end_time : Nat
  terminal_id : String
  processed_count : Nat
  success_count : Nat
  failed_count : Nat
  status : String
  notes : String
deriving Repr, DecidableEq

/-- The `ReconciliationResult` response schema. -/
structure ReconciliationResult where
  reconciliation_id : Nat
  processed_count : Nat
  success_count : Nat
  failed_count : Nat
  status : String
  notes : String
deriving Repr, DecidableEq

/-- The persisted database state the transaction service operates on:
the product ids that exist, the stock ledger, the sale transactions and the
reconciliation logs, plus the autoincrement counters of the two tables the
service inserts into. -/
structure DB where
  products : List Nat
  stock_levels : List StockLevel
  transactions : List SaleTransaction
  recon_logs : List ReconciliationLog
  next_transaction_id : Nat
  next_log_id : Nat
deriving Repr, DecidableEq

/-- `db.get(SaleTransaction, transaction_id)`. -/
def find_transaction (db : DB) (transaction_id : Nat) : Option SaleTransaction :=
  db.transactions.find? (fun t => t.id == transaction_id)

/-- The idempotency lookup `SELECT ... WHERE event_id = e`. -/
def find_transaction_by_event_id (db : DB) (e : String) : Option SaleTransaction :=
  db.transactions.find? (fun t => t.event_id == e)

/-- Persisting a mutated `SaleTransaction` row: replaces the row with the
same `id`. -/
def update_transaction (db : DB) (t : SaleTransaction) : DB :=
  { db with transactions := db.transactions.map (fun u => if u.id == t.id then t else u) }

/-- `TransactionService.create_sale_transaction`.  First the idempotency
check: an existing row with the same `event_id` is returned unchanged.
Otherwise the product must exist (`ValueError` if not) and a fresh row is
inserted in `pending` status with `processed_at` unset. -/
def create_sale_transaction (db : DB) (d : SaleTransactionCreate) :
    DB × Except PyErr SaleTransaction :=
  match find_transaction_by_event_id db d.event_id with
  | some existing_transaction => (db, .ok existing_transaction)
  | none =>
    if db.products.contains d.product_id then
      let t : SaleTransaction :=
        { id := db.next_transaction_id
          event_id := d.event_id
          product_id := d.product_id
          location_id := d.location_id
          quantity := d.quantity
          unit_type := d.unit_type
          converted_quantity := d.converted_quantity
          price_per_unit := d.price_per_unit
          total_amount := d.total_amount
          status := .pending
          processed_at := none
          terminal_timestamp := d.terminal_timestamp
          user_id := d.user_id }
      ({ db with transactions := db.transactions ++ [t],
                 next_transaction_id := db.next_transaction_id + 1 },
       .ok t)
    else (db, .error .valueError)

/-- `TransactionService.confirm_transaction`.  `ValueError` when the row is
absent or not `pending`.  Then `consume_stock`; on `InsufficientStockError`
the transaction is persisted as `failed` with `processed_at` stamped and
the error is re-raised; on success (including the missing-stock-row `False`
return) the transaction is persisted as `confirmed` with `processed_at`
stamped. -/
def confirm_transaction (db : DB) (transaction_id : Nat) (now : Nat) :
    DB × Except PyErr SaleTransaction :=
  match find_transaction db transaction_id with
  | none => (db, .error .valueError)
  | some transaction =>
    if transaction.status ≠ TransactionStatus.pending then (db, .error .valueError)
    else
      match consume_stock db.stock_levels transaction.product_id
              transaction.location_id transaction.converted_quantity with
      | (_, .error PyErr.insufficientStock) =>
        let t := { transaction with status := TransactionStatus.failed,
                                    processed_at := some now }
        (update_transaction db t, .error .insufficientStock)
      | (stock1, .error e) =>
        -- unreachable: consume_stock only raises InsufficientStockError;
        -- an uncaught exception would propagate with no transaction update
        ({ db with stock_levels := stock1 }, .error e)
      | (stock1, .ok _) =>
        let t := { transaction with status := TransactionStatus.confirmed,
                                    processed_at := some now }
        (update_transaction { db with stock_levels := stock1 } t, .ok t)

/-- `TransactionService.cancel_transaction`.  `ValueError` when the row is
absent or not `pending`; then a best-effort `release_reserved_stock` (its
Boolean result is ignored) and the transaction is persisted as `cancelled`
with `processed_at` stamped. -/
def cancel_transaction (db : DB) (transaction_id : Nat) (now : Nat) :
    DB × Except PyErr SaleTransaction :=
  match find_transaction db transaction_id with
  | none => (db, .error .valueError)
  | some transaction =>
    if transaction.status ≠ TransactionStatus.pending then (db, .error .valueError)
    else
      match release_reserved_stock db.stock_levels transaction.product_id
              transaction.location_id transaction.converted_quantity with
      | (stock1, .error e) =>
        -- unreachable: release_reserved_stock never raises
        ({ db with stock_levels := stock1 }, .error e)
      | (stock1, .ok _) =>
        let t := { transaction with status := TransactionStatus.cancelled,
                                    processed_at := some now }
        (update_transaction { db with stock_levels := stock1 } t, .ok t)

/-- One iteration of the reconciliation loop body: `create_sale_transaction`
then, only when the resulting status is `pending`, `confirm_transaction`.
Returns the committed state and whether the item completed without
raising. -/
def process_reconciliation_item (db : DB) (now : Nat) (d : SaleTransactionCreate) :
    DB × Bool :=
  match create_sale_transaction db d with
  | (db1, .error _) => (db1, false)
  | (db1, .ok t) =>
    if t.status = TransactionStatus.pending then
      match confirm_transaction db1 t.id now with
      | (db2, .ok _) => (db2, true)
      | (db2, .error _) => (db2, false)
    else (db1, true)

/-- The sequential fold of the reconciliation loop, threading the state and
the `(processed, success, failed)` counters in submitted order. -/
def reconcile_loop (now : Nat) (items : List SaleTransactionCreate)
    (acc : DB × Nat × Nat × Nat) : DB × Nat × Nat × Nat :=
  items.foldl
    (fun acc d =>
      match acc with
      | (db, p, s, f) =>
        match process_reconciliation_item db now d with
        | (db1, true) => (db1, p + 1, s + 1, f)
        | (db1, false) => (db1, p + 1, s, f + 1))
    acc

/-- The summary note `reconcile_transactions` writes into the finalized
log. -/
def recon_note (p s f : Nat) : String :=
  "Processed " ++ toString p ++ " transactions: " ++ toString s
    ++ " succeeded, " ++ toString f ++ " failed"

/-- The finalization of the log row: counters, `completed` status and the
summary note. -/
def finalize_log (log0 : ReconciliationLog) (p s f : Nat) : ReconciliationLog :=
  { log0 with processed_count := p, success_count := s, failed_count := f,
              status := "completed", notes := recon_note p s f }

/-- The prologue of `reconcile_transactions`: inserts the log row in
`running` status (getting its id from the autoincrement counter) and
returns it with the new state. -/
def open_recon_log (db : DB) (terminal_id : String) (start_time end_time : Nat) :
    DB × ReconciliationLog :=
  let log0 : ReconciliationLog :=
    { id := db.next_log_id
      start_time := start_time
      end_time := end_time
      terminal_id := terminal_id
      processed_count := 0
      success_count := 0
      failed_count := 0
      status := "running"
      notes := "" }
  ({ db with recon_logs := db.recon_logs ++ [log0],
             next_log_id := db.next_log_id + 1 },
   log0)

/-- `TransactionService.reconcile_transactions`.  Opens a log row in
`running` status, processes the batch sequentially (every per-item failure
is caught, counted and the loop continues), then finalizes the same log row
to `completed` with the counters and a summary note, returning the
counters. -/
def reconcile_transactions (db : DB) (terminal_id : String)
    (start_time end_time now : Nat) (transactions : List SaleTransactionCreate) :
    DB × ReconciliationResult :=
  match open_recon_log db terminal_id start_time end_time with
  | (db0, log0) =>
  match reconcile_loop now transactions (db0, 0, 0, 0) with
  | (db1, p, s, f) =>
    let log1 := finalize_log log0 p s f
    ({ db1 with recon_logs := db1.recon_logs.map (fun lg => if lg.id == log0.id then log1 else lg) },
     { reconciliation_id := log0.id
       processed_count := p
       success_count := s
       failed_count := f
       status := "completed"
       notes := recon_note p s f })

/-- One ledger call on a fixed key, tagged with its quantity argument. -/
inductive StockOp where
  | reserve : ℚ → StockOp
  | release : ℚ → StockOp
  | consume : ℚ → StockOp
deriving Repr, DecidableEq

/-- The quantity argument of a ledger call. -/
def StockOp.qty : StockOp → ℚ
  | .reserve q => q
  | .release q => q
  | .consume q => q

/-- The state committed by one ledger call on key `(p, l)` (whether the call
returned successfully or raised `InsufficientStockError`, the committed
state is the first component of the modelled call). -/
def apply_stock_op (db : List StockLevel) (p l : Nat) : StockOp → List StockLevel
  | .reserve q => (reserve_stock db p l q).1
  | .release q => (release_reserved_stock db p l q).1
  | .consume q => (consume_stock db p l q).1

/-- The state after a sequence of ledger calls on key `(p, l)`. -/
def run_stock_ops (db : List StockLevel) (p l : Nat) (ops : List StockOp) :
    List StockLevel :=
  ops.foldl (fun d op => apply_stock_op d p l op) db

/-- The reservation invariant on the row for key `(p, l)`:
`0 ≤ reserved_quantity ≤ quantity` (vacuous when the row is absent). -/
def stock_invariant (db : List StockLevel) (p l : Nat) : Prop :=
  match get_stock_level db p l with
  | none => True
  | some s => 0 ≤ s.reserved_quantity ∧ s.reserved_quantity ≤ s.quantity

/-- Looking up a key after rewriting all its rows applies the rewrite to the
row the lookup finds, provided the rewrite keeps the key fields. -/
theorem get_set_stock (db : List StockLevel) (p l : Nat) (f : StockLevel → StockLevel)
    (hf : ∀ s, (f s).product_id = s.product_id ∧ (f s).location_id = s.location_id) :
    get_stock_level (set_stock db p l f) p l = (get_stock_level db p l).map f := by
  induction db with
  | nil => rfl
  | cons s rest ih =>
    by_cases h : (s.product_id == p && s.location_id == l) = true
    · obtain ⟨hp, hl⟩ : s.product_id = p ∧ s.location_id = l := by
        simpa [Bool.and_eq_true] using h
      rcases hf s with ⟨h1, h2⟩
      simp [get_stock_level, set_stock, List.find?_cons, hp, hl, h1, h2]
    · have hb : (s.product_id == p && s.location_id == l) = false := by
        simpa using h
      simp only [get_stock_level, set_stock, List.map, if_neg h]
      simp only [List.find?_cons, hb]
      exact ih

/-- A single ledger call with a nonnegative quantity argument preserves the
reservation invariant on its key. -/
theorem stock_op_preserves_invariant (db : List StockLevel) (p l : Nat) (op : StockOp)
    (hq : 0 ≤ op.qty) (hinv : stock_invariant db p l) :
    stock_invariant (apply_stock_op db p l op) p l := by
  cases op with
  | reserve q =>
    simp only [StockOp.qty] at hq
    simp only [apply_stock_op, reserve_stock]
    cases hrow : get_stock_level db p l with
    | none => simp [stock_invariant, hrow]
    | some s =>
      simp only [stock_invariant, hrow] at hinv
      by_cases havail : s.quantity - s.reserved_quantity < q
      · simp only [hrow, if_pos havail]
        simpa [stock_invariant, hrow] using hinv
      · simp only [hrow, if_neg havail]
        have hrow2 : get_stock_level (set_stock db p l
            (fun t => { t with reserved_quantity := s.reserved_quantity + q })) p l =
            some { s with reserved_quantity := s.reserved_quantity + q } := by
          rw [get_set_stock db p l
            (fun t => { t with reserved_quantity := s.reserved_quantity + q })
            (fun t => ⟨rfl, rfl⟩), hrow]
          rfl
        simp only [stock_invariant, hrow2]
        simp only [not_lt] at havail
        exact ⟨by linarith [hinv.1], by linarith [hinv.2]⟩
  | release q =>
    simp only [StockOp.qty] at hq
    simp only [apply_stock_op, release_reserved_stock]
    cases hrow : get_stock_level db p l with
    | none => simp [stock_invariant, hrow]
    | some s =>
      simp only [stock_invariant, hrow] at hinv
      simp only [hrow]
      have hrow2 : get_stock_level (set_stock db p l
          (fun t => { t with reserved_quantity := max 0 (s.reserved_quantity - q) })) p l =
          some { s with reserved_quantity := max 0 (s.reserved_quantity - q) } := by
        rw [get_set_stock db p l
          (fun t => { t with reserved_quantity := max 0 (s.reserved_quantity - q) })
          (fun t => ⟨rfl, rfl⟩), hrow]
        rfl
      simp only [stock_invariant, hrow2]
      refine ⟨le_max_left 0 _, max_le (by linarith [hinv.1, hinv.2]) (by linarith [hinv.2])⟩
  | consume q =>
    simp only [StockOp.qty] at hq
    simp only [apply_stock_op, consume_stock]
    cases hrow : get_stock_level db p l with
    | none => simp [stock_invariant, hrow]
    | some s =>
      simp only [stock_invariant, hrow] at hinv
      by_cases havail : s.quantity - s.reserved_quantity < q
      · simp only [hrow, if_pos havail]
        simpa [stock_invariant, hrow] using hinv
      · simp only [hrow, if_neg havail]
        have hrow2 : get_stock_level (set_stock db p l
            (fun t => { t with quantity := s.quantity - q,
                               reserved_quantity := max 0 (s.reserved_quantity - q) })) p l =
            some { s with quantity := s.quantity - q,
                          reserved_quantity := max 0 (s.reserved_quantity - q) } := by
          rw [get_set_stock db p l
            (fun t => { t with quantity := s.quantity - q,
                               reserved_quantity := max 0 (s.reserved_quantity - q) })
            (fun t => ⟨rfl, rfl⟩), hrow]
          rfl
        simp only [stock_invariant, hrow2]
        simp only [not_lt] at havail
        refine ⟨le_max_left 0 _, max_le (by linarith [hinv.1]) (by linarith [hinv.2])⟩

/-- The reservation invariant is preserved by any sequence of ledger calls
with nonnegative quantity arguments. -/
theorem run_stock_ops_preserves_invariant (db : List StockLevel) (p l : Nat)
    (ops : List StockOp) (hq : ∀ op ∈ ops, 0 ≤ op.qty)
    (hinv : stock_invariant db p l) :
    stock_invariant (run_stock_ops db p l ops) p l := by
  induction ops generalizing db with
  | nil => exact hinv
  | cons op rest ih =>
    exact ih (apply_stock_op db p l op)
      (fun o ho => hq o (List.mem_cons_of_mem op ho))
      (stock_op_preserves_invariant db p l op (hq op (List.mem_cons_self op rest)) hinv)

/-- C1 (amended): for every sequence of `reserve_stock` /
`release_reserved_stock` / `consume_stock` calls on a single
`(product_id, location_id)` key **whose quantity arguments are all
nonnegative**, starting from a state whose row for that key satisfies
`0 ≤ reserved_quantity ≤ quantity`, the state after every call of the
sequence (after every prefix, whether the call returned successfully or
with `InsufficientStockError`) still satisfies
`0 ≤ reserved_quantity ≤ quantity`. -/
theorem C1_reservation_invariant (db : List StockLevel) (p l : Nat)
    (ops pre suf : List StockOp)
    (hq : ∀ op ∈ ops, 0 ≤ op.qty)
    (hsplit : ops = pre ++ suf)
    (hinv : stock_invariant db p l) :
    stock_invariant (run_stock_ops db p l pre) p l := by
  subst hsplit
  exact run_stock_ops_preserves_invariant db p l pre
    (fun o ho => hq o (List.mem_append_left suf ho)) hinv

/-- C1 counterexample: starting from the row for key `(1, 1)` with
`quantity = 0` and `reserved_quantity = 0` (which satisfies
`0 ≤ reserved_quantity ≤ quantity`), the single call
`reserve_stock 1 1 (-1)` — a legal `Decimal` argument nothing in the code
validates — returns successfully (`True`) and leaves
`reserved_quantity = -1 < 0`, violating the claimed invariant. -/
theorem C1_counterexample :
    stock_invariant [⟨1, 1, 0, 0⟩] 1 1 ∧
    (reserve_stock [⟨1, 1, 0, 0⟩] 1 1 (-1)).2 = Except.ok true ∧
    run_stock_ops [⟨1, 1, 0, 0⟩] 1 1 [StockOp.reserve (-1)] = [⟨1, 1, 0, -1⟩] ∧
    ¬ stock_invariant (run_stock_ops [⟨1, 1, 0, 0⟩] 1 1 [StockOp.reserve (-1)]) 1 1 := by
  refine ⟨?_, ?_, ?_, ?_⟩ <;>
    norm_num [stock_invariant, run_stock_ops, apply_stock_op, reserve_stock,
      get_stock_level, set_stock]

/-- Witness for `C1_reservation_invariant`: a concrete three-call sequence
with nonnegative quantities starting from `quantity = 10`,
`reserved_quantity = 2`. -/
theorem C1_reservation_invariant_witness :
    stock_invariant (run_stock_ops [⟨1, 1, 10, 2⟩] 1 1
      [StockOp.reserve 3, StockOp.consume 4, StockOp.release 10]) 1 1 :=
  C1_reservation_invariant [⟨1, 1, 10, 2⟩] 1 1
    [StockOp.reserve 3, StockOp.consume 4, StockOp.release 10]
    [StockOp.reserve 3, StockOp.consume 4, StockOp.release 10] []
    (by
      intro op hop
      simp only [List.mem_cons, List.not_mem_nil, or_false] at hop
      rcases hop with h | h | h <;> subst h <;> norm_num [StockOp.qty])
    (List.append_nil _).symm
    (by norm_num [stock_invariant, get_stock_level])

/-- C6 counterexample: with a stored degenerate conversion row
`(product 1, from "u", to "u", factor 2)`, `convert_units 1 "u" "u" 3`
finds the direct row first and returns `3 * 2 = 6`, not `3`: the
`from_unit == to_unit` identity is NOT independent of the stored rows. -/
theorem C6_counterexample :
    convert_units [(⟨1, "u", "u", 2⟩ : UnitConversion)] 1 "u" "u" 3 = Except.ok 6 ∧
    (Except.ok (6 : ℚ) : Except PyErr ℚ) ≠ Except.ok (3 : ℚ) := by
  constructor
  · norm_num +decide [convert_units, find_conversion]
  · norm_num

/-- C6 (amended): `convert_units` with `from_unit = to_unit = u` returns the
quantity unchanged **provided no conversion row keyed
`(product_id, u, u)` is stored for the product** (the code checks the
stored rows before the same-unit identity). -/
theorem C6_same_unit_identity (db : List UnitConversion) (p : Nat) (u : String)
    (q : ℚ) (hrow : find_conversion db p u u = none) :
    convert_units db p u u q = Except.ok q := by
  simp [convert_units, hrow]

/-- Witness for `C6_same_unit_identity` on an empty conversion table. -/
theorem C6_same_unit_identity_witness :
    convert_units ([] : List UnitConversion) 1 "kg" "kg" 5 = Except.ok 5 :=
  C6_same_unit_identity [] 1 "kg" 5 rfl

/-- C7 counterexample: with no `StockLevel` row at all,
`release_reserved_stock` returns `False`, not success (`True`); it is a
no-op and does not raise, but its return value reports failure. -/
theorem C7_counterexample :
    release_reserved_stock ([] : List StockLevel) 1 1 5 = ([], Except.ok false) ∧
    (Except.ok false : Except PyErr Bool) ≠ Except.ok true := by
  constructor
  · rfl
  · simp

/-- C7 (amended): when the row exists, `release_reserved_stock` sets
`reserved_quantity := max 0 (reserved_quantity - qty)` (floored at zero,
never negative, safe against over-release) and returns `True`; when no row
exists for the key it is a no-op that returns `False` (it does not raise,
but it does not report success either). -/
theorem C7_release_floored (db : List StockLevel) (p l : Nat) (q : ℚ) :
    (get_stock_level db p l = none →
      release_reserved_stock db p l q = (db, Except.ok false)) ∧
    (∀ s, get_stock_level db p l = some s →
      (release_reserved_stock db p l q).2 = Except.ok true ∧
      get_stock_level (release_reserved_stock db p l q).1 p l =
        some { s with reserved_quantity := max 0 (s.reserved_quantity - q) } ∧
      0 ≤ max 0 (s.reserved_quantity - q)) := by
  constructor
  · intro h
    simp [release_reserved_stock, h]
  · intro s hs
    refine ⟨?_, ?_, le_max_left 0 _⟩
    · simp [release_reserved_stock, hs]
    · simp only [release_reserved_stock, hs]
      rw [get_set_stock db p l
        (fun t => { t with reserved_quantity := max 0 (s.reserved_quantity - q) })
        (fun t => ⟨rfl, rfl⟩), hs]
      rfl

/-- Witness for `C7_release_floored`: over-releasing 5 from a reservation of
3 floors the reservation at 0 and returns `True`; releasing on a missing
row is a no-op returning `False`. -/
theorem C7_release_floored_witness :
    (release_reserved_stock [(⟨1, 1, 10, 3⟩ : StockLevel)] 1 1 5).2 = Except.ok true ∧
    get_stock_level (release_reserved_stock [(⟨1, 1, 10, 3⟩ : StockLevel)] 1 1 5).1 1 1 =
      some ⟨1, 1, 10, max 0 (3 - 5)⟩ ∧
    release_reserved_stock ([] : List StockLevel) 2 2 7 = ([], Except.ok false) := by
  refine ⟨?_, ?_, ?_⟩
  · exact ((C7_release_floored [⟨1, 1, 10, 3⟩] 1 1 5).2 ⟨1, 1, 10, 3⟩
      (by norm_num [get_stock_level])).1
  · exact ((C7_release_floored [⟨1, 1, 10, 3⟩] 1 1 5).2 ⟨1, 1, 10, 3⟩
      (by norm_num [get_stock_level])).2.1
  · exact (C7_release_floored [] 2 2 7).1 rfl

/-- C8 (amended): `convert_units` raises `InvalidOperationError`
("No conversion available") iff `from_unit ≠ to_unit` and neither the
direct nor the reverse row exists; a direct row gives
`quantity * factor`; a reverse-only row with **nonzero** factor gives
`quantity / factor`, while a reverse-only row with factor `0` raises
`decimal.DivisionByZero` instead of returning. -/
theorem C8_conversion_case_analysis (db : List UnitConversion) (p : Nat)
    (fu tu : String) (q : ℚ) :
    (convert_units db p fu tu q = Except.error PyErr.invalidOperation ↔
      fu ≠ tu ∧ find_conversion db p fu tu = none ∧ find_conversion db p tu fu = none) ∧
    (∀ c, find_conversion db p fu tu = some c →
      convert_units db p fu tu q = Except.ok (q * c.conversion_factor)) ∧
    (∀ c, find_conversion db p fu tu = none → find_conversion db p tu fu = some c →
      c.conversion_factor ≠ 0 →
      convert_units db p fu tu q = Except.ok (q / c.conversion_factor)) ∧
    (∀ c, find_conversion db p fu tu = none → find_conversion db p tu fu = some c →
      c.conversion_factor = 0 →
      convert_units db p fu tu q = Except.error PyErr.divisionByZero) := by
  refine ⟨?_, ?_, ?_, ?_⟩
  · cases hd : find_conversion db p fu tu with
    | some c => simp [convert_units, hd]
    | none =>
      cases hr : find_conversion db p tu fu with
      | some c =>
        by_cases hz : c.conversion_factor = 0
        · simp [convert_units, hd, hr, hz]
        · simp [convert_units, hd, hr, hz]
      | none =>
        by_cases he : fu = tu
        · subst he
          simp [convert_units, hd, hr]
        · simp [convert_units, hd, hr, he]
  · intro c hc
    simp [convert_units, hc]
  · intro c hd hr hz
    simp [convert_units, hd, hr, hz]
  · intro c hd hr hz
    simp [convert_units, hd, hr, hz]

/-- C8 counterexample: with only the reverse row `(1, "a", "b")` stored and
its factor equal to `0`, `convert_units 1 "b" "a" 5` raises
`decimal.DivisionByZero` rather than returning `quantity / factor` as the
claim states. -/
theorem C8_counterexample :
    find_conversion [(⟨1, "a", "b", 0⟩ : UnitConversion)] 1 "b" "a" = none ∧
    find_conversion [(⟨1, "a", "b", 0⟩ : UnitConversion)] 1 "a" "b" =
      some ⟨1, "a", "b", 0⟩ ∧
    convert_units [(⟨1, "a", "b", 0⟩ : UnitConversion)] 1 "b" "a" 5 =
      Except.error PyErr.divisionByZero ∧
    (Except.error PyErr.divisionByZero : Except PyErr ℚ) ≠ Except.ok (5 / 0) := by
  refine ⟨?_, ?_, ?_, ?_⟩
  · norm_num +decide [find_conversion]
  · norm_num +decide [find_conversion]
  · norm_num +decide [convert_units, find_conversion]
  · simp

/-- Witness for `C8_conversion_case_analysis`: direct, reverse and
no-conversion cases at concrete rows. -/
theorem C8_conversion_case_analysis_witness :
    convert_units [(⟨1, "a", "b", 2⟩ : UnitConversion)] 1 "a" "b" 3 = Except.ok 6 ∧
    convert_units [(⟨1, "a", "b", 2⟩ : UnitConversion)] 1 "b" "a" 6 = Except.ok 3 ∧
    convert_units ([] : List UnitConversion) 1 "a" "b" 3 =
      Except.error PyErr.invalidOperation := by
  refine ⟨?_, ?_, ?_⟩
  · have h := (C8_conversion_case_analysis [⟨1, "a", "b", 2⟩] 1 "a" "b" 3).2.1
      ⟨1, "a", "b", 2⟩ (by norm_num +decide [find_conversion])
    norm_num at h
    exact h
  · have h := (C8_conversion_case_analysis [⟨1, "a", "b", 2⟩] 1 "b" "a" 6).2.2.1
      ⟨1, "a", "b", 2⟩ (by norm_num +decide [find_conversion])
      (by norm_num +decide [find_conversion]) (by norm_num)
    norm_num at h
    exact h
  · exact (C8_conversion_case_analysis [] 1 "a" "b" 3).1.2 ⟨by simp, rfl, rfl⟩

/-- C9 (amended): if the stored row from unit `A` to unit `B` has a
**nonzero** factor `f` and no row from `B` to `A` exists, the round trip
A→B→A is exact: converting `q` gives `q * f` and converting back divides by
the same `f` via the reverse lookup, returning `q`. -/
theorem C9_round_trip (db : List UnitConversion) (p : Nat) (A B : String)
    (c : UnitConversion) (q : ℚ)
    (hAB : find_conversion db p A B = some c)
    (hBA : find_conversion db p B A = none)
    (hf : c.conversion_factor ≠ 0) :
    convert_units db p A B q = Except.ok (q * c.conversion_factor) ∧
    convert_units db p B A (q * c.conversion_factor) = Except.ok q := by
  constructor
  · simp [convert_units, hAB]
  · simp [convert_units, hBA, hAB, hf, mul_div_cancel_right₀ q hf]

/-- C9 counterexample: with the stored A→B factor equal to `0` (which the
code nowhere forbids), the round trip does not return the original
quantity: A→B maps `1` to `0` and B→A raises `decimal.DivisionByZero`. -/
theorem C9_counterexample :
    find_conversion [(⟨1, "a", "b", 0⟩ : UnitConversion)] 1 "a" "b" =
      some ⟨1, "a", "b", 0⟩ ∧
    find_conversion [(⟨1, "a", "b", 0⟩ : UnitConversion)] 1 "b" "a" = none ∧
    convert_units [(⟨1, "a", "b", 0⟩ : UnitConversion)] 1 "a" "b" 1 = Except.ok 0 ∧
    convert_units [(⟨1, "a", "b", 0⟩ : UnitConversion)] 1 "b" "a" 0 =
      Except.error PyErr.divisionByZero ∧
    (Except.error PyErr.divisionByZero : Except PyErr ℚ) ≠ Except.ok 1 := by
  refine ⟨?_, ?_, ?_, ?_, ?_⟩
  · norm_num +decide [find_conversion]
  · norm_num +decide [find_conversion]
  · norm_num +decide [convert_units, find_conversion]
  · norm_num +decide [convert_units, find_conversion]
  · simp

/-- Witness for `C9_round_trip` with factor `2`: 3 bottles → 6 glasses →
3 bottles. -/
theorem C9_round_trip_witness :
    convert_units [(⟨1, "bottle", "glass", 2⟩ : UnitConversion)] 1 "bottle" "glass" 3 =
      Except.ok 6 ∧
    convert_units [(⟨1, "bottle", "glass", 2⟩ : UnitConversion)] 1 "glass" "bottle" 6 =
      Except.ok 3 := by
  have h := C9_round_trip [⟨1, "bottle", "glass", 2⟩] 1 "bottle" "glass"
    ⟨1, "bottle", "glass", 2⟩ 3 (by norm_num +decide [find_conversion])
    (by norm_num +decide [find_conversion]) (by norm_num)
  constructor
  · have h1 := h.1
    norm_num at h1
    exact h1
  · have h2 := h.2
    norm_num at h2
    exact h2

/-- Replacing, in a transaction table, the row an id lookup finds by a new
row carrying the same id makes the lookup return the new row. -/
theorem find_replace_by_id (i : Nat) (t t' : SaleTransaction)
    (l : List SaleTransaction) (hid : t'.id = t.id)
    (hfind : l.find? (fun u => u.id == i) = some t) :
    (l.map (fun u => if u.id == t'.id then t' else u)).find? (fun u => u.id == i) =
      some t' := by
  have hti : t.id = i := by simpa using List.find?_some hfind
  induction l with
  | nil => simp at hfind
  | cons u rest ih =>
    by_cases h : u.id = i
    · have hu : t = u := by
        rw [List.find?_cons_of_pos rest (by simpa using h)] at hfind
        exact (Option.some_inj.mp hfind).symm
      subst hu
      simp [List.find?_cons, hid, hti]
    · have hfind2 : rest.find? (fun u => u.id == i) = some t := by
        rw [List.find?_cons_of_neg rest (by simpa using h)] at hfind
        exact hfind
      have hne : (u.id == t'.id) = false := by
        simp [hid, hti]
        exact h
      have hni : (u.id == i) = false := by
        simpa using h
      simp only [List.map, hne, Bool.false_eq_true, if_false, List.find?_cons, hni]
      exact ih hfind2

/-- `update_transaction` with a row of the same id swaps the row the id
lookup returns. -/
theorem find_transaction_update (db : DB) (i : Nat) (t t' : SaleTransaction)
    (hfind : find_transaction db i = some t) (hid : t'.id = t.id) :
    find_transaction (update_transaction db t') i = some t' := by
  simpa [find_transaction, update_transaction] using
    find_replace_by_id i t t' db.transactions hid hfind

/-- The concrete C2 scenario: product 1 stocked with `quantity = 10`,
`reserved_quantity = 0` at location 1, and one pending transaction (id 1)
with `converted_quantity = 4`. -/
def exC2_db : DB :=
  { products := [1]
    stock_levels := [⟨1, 1, 10, 0⟩]
    transactions := [{ id := 1, event_id := "ev-1", product_id := 1, location_id := 1,
                       quantity := 4, unit_type := "base", converted_quantity := 4,
                       price_per_unit := 5, total_amount := 20,
                       status := TransactionStatus.pending, processed_at := none,
                       terminal_timestamp := none, user_id := none }]
    recon_logs := []
    next_transaction_id := 2
    next_log_id := 1 }

/-- C2: once a transaction's status is anything but `pending` (confirmed,
cancelled or failed), every further `confirm_transaction` or
`cancel_transaction` call on it fails with the invalid-transition
`ValueError` and returns the persisted state unchanged — in particular the
transaction's status and the on-hand stock quantity are unchanged.
Concretely: confirming the pending transaction of `exC2_db`
(`converted_quantity = 4` against on-hand `10`) leaves on-hand `6`, and a
second confirm on the now-confirmed transaction fails with the
invalid-transition error and on-hand remains `6`. -/
theorem C2_terminal_states_absorbing (db : DB) (tid now : Nat)
    (t : SaleTransaction)
    (hfind : find_transaction db tid = some t)
    (hterm : t.status ≠ TransactionStatus.pending) :
    confirm_transaction db tid now = (db, Except.error PyErr.valueError) ∧
    cancel_transaction db tid now = (db, Except.error PyErr.valueError) ∧
    get_stock_level (confirm_transaction exC2_db 1 5).1.stock_levels 1 1 =
      some ⟨1, 1, 6, 0⟩ ∧
    (confirm_transaction (confirm_transaction exC2_db 1 5).1 1 6).2 =
      Except.error PyErr.valueError ∧
    get_stock_level
      (confirm_transaction (confirm_transaction exC2_db 1 5).1 1 6).1.stock_levels 1 1 =
      some ⟨1, 1, 6, 0⟩ := by
  refine ⟨?_, ?_, ?_, ?_, ?_⟩
  · simp [confirm_transaction, hfind, hterm]
  · simp [cancel_transaction, hfind, hterm]
  · norm_num +decide [confirm_transaction, find_transaction, update_transaction,
      consume_stock, get_stock_level, set_stock, exC2_db]
  · norm_num +decide [confirm_transaction, find_transaction, update_transaction,
      consume_stock, get_stock_level, set_stock, exC2_db]
  · norm_num +decide [confirm_transaction, find_transaction, update_transaction,
      consume_stock, get_stock_level, set_stock, exC2_db]

/-- The confirmed transaction of the C2 scenario, used to witness the
terminal-state theorem at a concrete input. -/
def exC2_t_conf : SaleTransaction :=
  { id := 1, event_id := "ev-1", product_id := 1, location_id := 1,
    quantity := 4, unit_type := "base", converted_quantity := 4,
    price_per_unit := 5, total_amount := 20,
    status := TransactionStatus.confirmed, processed_at := some 5,
    terminal_timestamp := none, user_id := none }

/-- The C2 scenario after its transaction reached the terminal state
`confirmed` and stock was consumed once. -/
def exC2_done_db : DB :=
  { exC2_db with stock_levels := [⟨1, 1, 6, 0⟩], transactions := [exC2_t_conf] }

/-- Witness for `C2_terminal_states_absorbing` at the concrete confirmed
transaction of `exC2_done_db`. -/
theorem C2_terminal_states_absorbing_witness :
    confirm_transaction exC2_done_db 1 9 = (exC2_done_db, Except.error PyErr.valueError) ∧
    cancel_transaction exC2_done_db 1 9 = (exC2_done_db, Except.error PyErr.valueError) :=
  ⟨(C2_terminal_states_absorbing exC2_done_db 1 9 exC2_t_conf
      (by norm_num +decide [find_transaction, exC2_done_db, exC2_t_conf, exC2_db])
      (by simp [exC2_t_conf])).1,
   (C2_terminal_states_absorbing exC2_done_db 1 9 exC2_t_conf
      (by norm_num +decide [find_transaction, exC2_done_db, exC2_t_conf, exC2_db])
      (by simp [exC2_t_conf])).2.1⟩

/-- C3: confirming a pending transaction whose `converted_quantity` exceeds
the available stock (`quantity - reserved_quantity` of the existing row
for its key) re-raises `InsufficientStockError` to the caller, and the
persisted state has the transaction marked `failed` with `processed_at`
stamped to the current clock, while the stock ledger is untouched. -/
theorem C3_insufficient_stock_marks_failed (db : DB) (tid now : Nat)
    (t : SaleTransaction) (s : StockLevel)
    (hfind : find_transaction db tid = some t)
    (hpend : t.status = TransactionStatus.pending)
    (hstock : get_stock_level db.stock_levels t.product_id t.location_id = some s)
    (hinsuf : s.quantity - s.reserved_quantity < t.converted_quantity) :
    (confirm_transaction db tid now).2 = Except.error PyErr.insufficientStock ∧
    find_transaction (confirm_transaction db tid now).1 tid =
      some { t with status := TransactionStatus.failed, processed_at := some now } ∧
    (confirm_transaction db tid now).1.stock_levels = db.stock_levels := by
  have hcons : consume_stock db.stock_levels t.product_id t.location_id
      t.converted_quantity = (db.stock_levels, Except.error PyErr.insufficientStock) := by
    simp [consume_stock, hstock, hinsuf]
  have hconf : confirm_transaction db tid now =
      (update_transaction db { t with status := TransactionStatus.failed,
                                      processed_at := some now },
       Except.error PyErr.insufficientStock) := by
    simp [confirm_transaction, hfind, hpend, hcons]
  refine ⟨by rw [hconf], ?_, by rw [hconf]; rfl⟩
  rw [hconf]
  exact find_transaction_update db tid t _ hfind rfl

/-- The pending transaction of the C3/C10 concrete scenarios. -/
def exC3_t : SaleTransaction :=
  { id := 1, event_id := "ev-3", product_id := 1, location_id := 1,
    quantity := 4, unit_type := "base", converted_quantity := 4,
    price_per_unit := 5, total_amount := 20,
    status := TransactionStatus.pending, processed_at := none,
    terminal_timestamp := none, user_id := none }

/-- The C3 scenario: only 3 on hand but the pending transaction requests 4. -/
def exC3_db : DB :=
  { products := [1]
    stock_levels := [⟨1, 1, 3, 0⟩]
    transactions := [exC3_t]
    recon_logs := []
    next_transaction_id := 2
    next_log_id := 1 }

/-- Witness for `C3_insufficient_stock_marks_failed` on `exC3_db`. -/
theorem C3_insufficient_stock_marks_failed_witness :
    (confirm_transaction exC3_db 1 7).2 = Except.error PyErr.insufficientStock ∧
    find_transaction (confirm_transaction exC3_db 1 7).1 1 =
      some { exC3_t with status := TransactionStatus.failed, processed_at := some 7 } ∧
    (confirm_transaction exC3_db 1 7).1.stock_levels = exC3_db.stock_levels :=
  C3_insufficient_stock_marks_failed exC3_db 1 7 exC3_t ⟨1, 1, 3, 0⟩
    (by norm_num +decide [find_transaction, exC3_db, exC3_t])
    (by norm_num [exC3_t])
    (by norm_num +decide [get_stock_level, exC3_db, exC3_t])
    (by norm_num [exC3_t])

/-- C10: when no `StockLevel` row exists for a pending transaction's
`(product_id, location_id)` key, `consume_stock` returns `False` without
raising, and consequently `confirm_transaction` succeeds: the transaction
is persisted as `confirmed` with `processed_at` stamped, no error is
raised, and the stock ledger is completely unchanged — a missing stock row
is not treated as insufficient stock at the confirm interface. -/
theorem C10_missing_stock_row_confirms (db : DB) (tid now : Nat)
    (t : SaleTransaction)
    (hfind : find_transaction db tid = some t)
    (hpend : t.status = TransactionStatus.pending)
    (hstock : get_stock_level db.stock_levels t.product_id t.location_id = none) :
    consume_stock db.stock_levels t.product_id t.location_id t.converted_quantity =
      (db.stock_levels, Except.ok false) ∧
    (confirm_transaction db tid now).2 =
      Except.ok { t with status := TransactionStatus.confirmed,
                         processed_at := some now } ∧
    find_transaction (confirm_transaction db tid now).1 tid =
      some { t with status := TransactionStatus.confirmed,
                    processed_at := some now } ∧
    (confirm_transaction db tid now).1.stock_levels = db.stock_levels := by
  have hcons : consume_stock db.stock_levels t.product_id t.location_id
      t.converted_quantity = (db.stock_levels, Except.ok false) := by
    simp [consume_stock, hstock]
  have hconf : confirm_transaction db tid now =
      (update_transaction db { t with status := TransactionStatus.confirmed,
                                      processed_at := some now },
       Except.ok { t with status := TransactionStatus.confirmed,
                          processed_at := some now }) := by
    simp [confirm_transaction, hfind, hpend, hcons]
  refine ⟨hcons, by rw [hconf], ?_, by rw [hconf]; rfl⟩
  rw [hconf]
  exact find_transaction_update db tid t _ hfind rfl

/-- The C10 scenario: a pending transaction whose key has no stock row. -/
def exC10_db : DB :=
  { products := [1]
    stock_levels := []
    transactions := [exC3_t]
    recon_logs := []
    next_transaction_id := 2
    next_log_id := 1 }

/-- Witness for `C10_missing_stock_row_confirms` on `exC10_db`. -/
theorem C10_missing_stock_row_confirms_witness :
    (confirm_transaction exC10_db 1 8).2 =
      Except.ok { exC3_t with status := TransactionStatus.confirmed,
                              processed_at := some 8 } ∧
    (confirm_transaction exC10_db 1 8).1.stock_levels = exC10_db.stock_levels :=
  ⟨(C10_missing_stock_row_confirms exC10_db 1 8 exC3_t
      (by norm_num +decide [find_transaction, exC10_db, exC3_t])
      (by norm_num [exC3_t])
      (by norm_num [get_stock_level, exC10_db])).2.1,
   (C10_missing_stock_row_confirms exC10_db 1 8 exC3_t
      (by norm_num +decide [find_transaction, exC10_db, exC3_t])
      (by norm_num [exC3_t])
      (by norm_num [get_stock_level, exC10_db])).2.2.2⟩

/-- After a successful `create_sale_transaction`, the returned state finds
the returned transaction under the payload's `event_id`, and the stock
ledger is untouched (create performs no stock-ledger side effect). -/
theorem create_found_after (db db1 : DB) (d : SaleTransactionCreate)
    (t1 : SaleTransaction)
    (h : create_sale_transaction db d = (db1, Except.ok t1)) :
    find_transaction_by_event_id db1 d.event_id = some t1 ∧
    db1.stock_levels = db.stock_levels := by
  cases hex : find_transaction_by_event_id db d.event_id with
  | some ex =>
    simp only [create_sale_transaction, hex] at h
    rw [Prod.mk.injEq] at h
    obtain ⟨hdb, ht⟩ := h
    rw [Except.ok.injEq] at ht
    subst ht
    subst hdb
    exact ⟨hex, rfl⟩
  | none =>
    by_cases hp : db.products.contains d.product_id
    · simp only [create_sale_transaction, hex, hp, if_true] at h
      rw [Prod.mk.injEq] at h
      obtain ⟨hdb, ht⟩ := h
      rw [Except.ok.injEq] at ht
      subst ht
      subst hdb
      constructor
      · have hex2 : db.transactions.find? (fun u => u.event_id == d.event_id) = none := by
          simpa [find_transaction_by_event_id] using hex
        simp [find_transaction_by_event_id, List.find?_append, hex2, List.find?_cons]
      · rfl
    · have hp2 : db.products.contains d.product_id = false := by simpa using hp
      simp only [create_sale_transaction, hex, hp2, Bool.false_eq_true, if_false] at h
      rw [Prod.mk.injEq] at h
      exact absurd h.2 (by simp)

/-- C4: once a `create_sale_transaction` call has returned a transaction
(created or found), any further create call whose payload carries the same
`event_id` returns exactly the same transaction record — in particular the
same id — and leaves the entire persisted state unchanged: no new record,
no field mutation, and no stock-ledger side effect (the first call already
performed none: create leaves the stock ledger untouched). -/
theorem C4_idempotent_create (db db1 : DB) (d d2 : SaleTransactionCreate)
    (t1 : SaleTransaction)
    (hsame : d2.event_id = d.event_id)
    (h : create_sale_transaction db d = (db1, Except.ok t1)) :
    create_sale_transaction db1 d2 = (db1, Except.ok t1) ∧
    db1.stock_levels = db.stock_levels := by
  obtain ⟨hfound, hstock⟩ := create_found_after db db1 d t1 h
  refine ⟨?_, hstock⟩
  have hex2 : find_transaction_by_event_id db1 d2.event_id = some t1 := by
    rw [hsame]
    exact hfound
  simp [create_sale_transaction, hex2]

/-- The C4 payload: event id "dup-1" for product 1. -/
def exC4_d : SaleTransactionCreate :=
  { event_id := "dup-1", product_id := 1, location_id := 1, quantity := 2,
    unit_type := "base", converted_quantity := 2, price_per_unit := 3,
    total_amount := 6, terminal_timestamp := none, user_id := none }

/-- The C4 starting state: product 1 exists, no transactions yet. -/
def exC4_db : DB :=
  { products := [1]
    stock_levels := [⟨1, 1, 10, 0⟩]
    transactions := []
    recon_logs := []
    next_transaction_id := 1
    next_log_id := 1 }

/-- The record the first C4 create call inserts. -/
def exC4_t1 : SaleTransaction :=
  { id := 1, event_id := "dup-1", product_id := 1, location_id := 1,
    quantity := 2, unit_type := "base", converted_quantity := 2,
    price_per_unit := 3, total_amount := 6,
    status := TransactionStatus.pending, processed_at := none,
    terminal_timestamp := none, user_id := none }

/-- The state after the first C4 create call. -/
def exC4_db1 : DB :=
  { exC4_db with transactions := [exC4_t1], next_transaction_id := 2 }

/-- Witness for `C4_idempotent_create`: the second create with the same
payload returns the same record and state. -/
theorem C4_idempotent_create_witness :
    create_sale_transaction exC4_db1 exC4_d = (exC4_db1, Except.ok exC4_t1) ∧
    exC4_db1.stock_levels = exC4_db.stock_levels :=
  C4_idempotent_create exC4_db exC4_db1 exC4_d exC4_d exC4_t1 rfl
    (by norm_num +decide [create_sale_transaction, find_transaction_by_event_id,
      exC4_db, exC4_db1, exC4_d, exC4_t1])

/-- `create_sale_transaction` never touches the reconciliation-log table. -/
theorem create_preserves_recon_logs (db : DB) (d : SaleTransactionCreate) :
    (create_sale_transaction db d).1.recon_logs = db.recon_logs := by
  cases h : find_transaction_by_event_id db d.event_id with
  | some ex => simp [create_sale_transaction, h]
  | none =>
    by_cases hp : d.product_id ∈ db.products
    · simp [create_sale_transaction, h, hp]
    · simp [create_sale_transaction, h, hp]

/-- `confirm_transaction` never touches the reconciliation-log table. -/
theorem confirm_preserves_recon_logs (db : DB) (tid now : Nat) :
    (confirm_transaction db tid now).1.recon_logs = db.recon_logs := by
  cases h : find_transaction db tid with
  | none => simp [confirm_transaction, h]
  | some t =>
    by_cases hp : t.status = TransactionStatus.pending
    · cases hc : consume_stock db.stock_levels t.product_id t.location_id
          t.converted_quantity with
      | mk stock1 r =>
        cases r with
        | error e =>
          cases e <;> simp [confirm_transaction, h, hp, hc, update_transaction]
        | ok b => simp [confirm_transaction, h, hp, hc, update_transaction]
    · simp [confirm_transaction, h, hp]

/-- One reconciliation item never touches the reconciliation-log table. -/
theorem process_item_preserves_recon_logs (db : DB) (now : Nat)
    (d : SaleTransactionCreate) :
    (process_reconciliation_item db now d).1.recon_logs = db.recon_logs := by
  cases hc : create_sale_transaction db d with
  | mk db1 r =>
    have h1 : db1.recon_logs = db.recon_logs := by
      have h := create_preserves_recon_logs db d
      rw [hc] at h
      exact h
    cases r with
    | error e => simp [process_reconciliation_item, hc, h1]
    | ok t =>
      by_cases hp : t.status = TransactionStatus.pending
      · cases hcf : confirm_transaction db1 t.id now with
        | mk db2 r2 =>
          have h2 : db2.recon_logs = db1.recon_logs := by
            have h := confirm_preserves_recon_logs db1 t.id now
            rw [hcf] at h
            exact h
          cases r2 <;> simp [process_reconciliation_item, hc, hp, hcf, h2, h1]
      · simp [process_reconciliation_item, hc, hp, h1]

/-- One-step unfolding of the reconciliation loop. -/
theorem reconcile_loop_cons (now : Nat) (d : SaleTransactionCreate)
    (rest : List SaleTransactionCreate) (db : DB) (p s f : Nat) :
    reconcile_loop now (d :: rest) (db, p, s, f) =
      reconcile_loop now rest
        (match process_reconciliation_item db now d with
         | (db1, true) => (db1, p + 1, s + 1, f)
         | (db1, false) => (db1, p + 1, s, f + 1)) := rfl

/-- The reconciliation loop advances the processed counter by exactly one
per item, counts every item as exactly one of success/failure, and never
touches the reconciliation-log table. -/
theorem reconcile_loop_spec (now : Nat) (items : List SaleTransactionCreate) :
    ∀ (db : DB) (p s f : Nat),
      (reconcile_loop now items (db, p, s, f)).2.1 = p + items.length ∧
      (reconcile_loop now items (db, p, s, f)).2.2.1 +
        (reconcile_loop now items (db, p, s, f)).2.2.2 = s + f + items.length ∧
      (reconcile_loop now items (db, p, s, f)).1.recon_logs = db.recon_logs := by
  induction items with
  | nil =>
    intro db p s f
    simp [reconcile_loop]
  | cons d rest ih =>
    intro db p s f
    rw [reconcile_loop_cons]
    cases hstep : process_reconciliation_item db now d with
    | mk db1 ok =>
      have hlogs : db1.recon_logs = db.recon_logs := by
        have h := process_item_preserves_recon_logs db now d
        rw [hstep] at h
        exact h
      cases ok with
      | true =>
        obtain ⟨h1, h2, h3⟩ := ih db1 (p + 1) (s + 1) f
        refine ⟨by rw [h1]; simp only [List.length_cons]; omega,
                by rw [h2]; simp only [List.length_cons]; omega,
                by rw [h3, hlogs]⟩
      | false =>
        obtain ⟨h1, h2, h3⟩ := ih db1 (p + 1) s (f + 1)
        refine ⟨by rw [h1]; simp only [List.length_cons]; omega,
                by rw [h2]; simp only [List.length_cons]; omega,
                by rw [h3, hlogs]⟩

/-- The C5 concrete scenario state: product 1 exists with ample stock,
nothing else. -/
def exC5_db : DB :=
  { products := [1]
    stock_levels := [⟨1, 1, 100, 0⟩]
    transactions := []
    recon_logs := []
    next_transaction_id := 1
    next_log_id := 1 }

/-- A C5 batch item: fresh event id, requested product, quantity 1. -/
def exC5_item (e : String) (pid : Nat) : SaleTransactionCreate :=
  { event_id := e, product_id := pid, location_id := 1, quantity := 1,
    unit_type := "base", converted_quantity := 1, price_per_unit := 1,
    total_amount := 1, terminal_timestamp := none, user_id := none }

/-- The C5 batch: 5 items, item 3 references nonexistent product 99. -/
def exC5_items : List SaleTransactionCreate :=
  [exC5_item "r1" 1, exC5_item "r2" 1, exC5_item "r3" 99,
   exC5_item "r4" 1, exC5_item "r5" 1]


/-- Closed form of `reconcile_transactions` given the outcomes of the log
prologue and the loop. -/
theorem reconcile_transactions_eq (db : DB) (terminal_id : String)
    (st et now : Nat) (items : List SaleTransactionCreate)
    (db0 : DB) (log0 : ReconciliationLog)
    (hopen : open_recon_log db terminal_id st et = (db0, log0))
    (db1 : DB) (p s f : Nat)
    (hloop : reconcile_loop now items (db0, 0, 0, 0) = (db1, p, s, f)) :
    reconcile_transactions db terminal_id st et now items =
      ({ db1 with recon_logs := db1.recon_logs.map (fun lg => if lg.id == log0.id then finalize_log log0 p s f else lg) },
       { reconciliation_id := log0.id, processed_count := p, success_count := s,
         failed_count := f, status := "completed", notes := recon_note p s f }) := by
  simp only [reconcile_transactions, hopen, hloop]

/-- C5: `reconcile_transactions` processes the batch sequentially in
submitted order, increments the processed counter for every item, counts
each item as exactly one of success/failure (failures do not abort the
loop), and always finalizes the log to status `completed` with
`processed_count = success_count + failed_count = batch length`; on the
concrete 5-item batch whose third item references nonexistent product 99,
it reports `processed_count = 5`, `success_count = 4`, `failed_count = 1`,
status `completed`. -/
theorem C5_batch_partial_failure (db : DB) (terminal_id : String)
    (st et now : Nat) (items : List SaleTransactionCreate) :
    ((reconcile_transactions db terminal_id st et now items).2.status = "completed" ∧
     (reconcile_transactions db terminal_id st et now items).2.processed_count =
       items.length ∧
     (reconcile_transactions db terminal_id st et now items).2.processed_count =
       (reconcile_transactions db terminal_id st et now items).2.success_count +
         (reconcile_transactions db terminal_id st et now items).2.failed_count ∧
     ∃ lg ∈ (reconcile_transactions db terminal_id st et now items).1.recon_logs,
       lg.id = (reconcile_transactions db terminal_id st et now items).2.reconciliation_id ∧
       lg.status = "completed" ∧
       lg.processed_count = items.length ∧
       lg.processed_count = lg.success_count + lg.failed_count) ∧
    ((reconcile_transactions exC5_db "term-1" 0 100 50 exC5_items).2.processed_count = 5 ∧
     (reconcile_transactions exC5_db "term-1" 0 100 50 exC5_items).2.success_count = 4 ∧
     (reconcile_transactions exC5_db "term-1" 0 100 50 exC5_items).2.failed_count = 1 ∧
     (reconcile_transactions exC5_db "term-1" 0 100 50 exC5_items).2.status =
       "completed") := by
  constructor
  · cases hopen : open_recon_log db terminal_id st et with
    | mk db0 log0 =>
      obtain ⟨hp, hsf, hlogs⟩ := reconcile_loop_spec now items db0 0 0 0
      cases hloop : reconcile_loop now items (db0, 0, 0, 0) with
      | mk db1 pr =>
        obtain ⟨p, s, f⟩ := pr
        rw [hloop] at hp hsf hlogs
        dsimp only at hp hsf hlogs
        have hdb0 : db0.recon_logs = db.recon_logs ++ [log0] := by
          have h1 : (open_recon_log db terminal_id st et).1.recon_logs
              = db.recon_logs ++ [(open_recon_log db terminal_id st et).2] := rfl
          rw [hopen] at h1
          exact h1
        rw [reconcile_transactions_eq db terminal_id st et now items db0 log0 hopen
          db1 p s f hloop]
        refine ⟨rfl, by simpa using hp, by dsimp only; omega, ?_⟩
        refine ⟨finalize_log log0 p s f, ?_, rfl, rfl,
                by simpa [finalize_log] using hp,
                by simp only [finalize_log]; omega⟩
        dsimp only
        rw [hlogs, hdb0]
        simp
  · refine ⟨?_, ?_, ?_, ?_⟩ <;>
      norm_num +decide [reconcile_transactions, open_recon_log, recon_note,
        finalize_log, reconcile_loop, process_reconciliation_item, create_sale_transaction,
        confirm_transaction, find_transaction, find_transaction_by_event_id,
        update_transaction, consume_stock, get_stock_level, set_stock,
        exC5_db, exC5_items, exC5_item]
